import Mathlib

/-!
Shallow embedding of the per-partition document engine
(`src/pserver/simba/simba.rs` of chubaodb): the write state machine
(`write`, `_create`, `_update`, `_upsert`, `_delete`, `_overwrite`,
`do_write`, `do_delete`), the JSON deep merge (`merge`, `merge_doc`),
the sequence-number tracker (`get_sn`, `set_sn_if_max`), the search
error wrapper (`search`) and the leader replay step of `load_engine`.

Modelling conventions: byte strings holding encoded documents are
modelled as the decoded `Document` (prost encode/decode round-trips);
`source` bytes are modelled as the parsed JSON `Value`
(serde_json round-trips); u64 arithmetic carries an explicit
`% 2^64`; the KV store and the index are association lists keyed by
the internal id; the raft log is the list of appended events.
-/

namespace Simba

/-- u64 modulus: Rust `u64` arithmetic wraps modulo `2^64`. -/
def u64M : Nat := 18446744073709551616

/-- JSON values, as `serde_json::Value`; objects are association lists
(serde maps modelled by their entry list). -/
inductive Value where
  | null : Value
  | bool (b : Bool) : Value
  | num (n : Int) : Value
  | str (s : String) : Value
  | arr (xs : List Value) : Value
  | obj (fields : List (String × Value)) : Value

/-- Whether an object's entry list contains key `k`. -/
def hasKey : List (String × Value) → String → Bool
  | [], _ => false
  | (k2, _) :: rest, k => k2 == k || hasKey rest k

/-- Value at key `k` (`Value.null` when absent). -/
def getD : List (String × Value) → String → Value
  | [], _ => Value.null
  | (k2, v) :: rest, k => if k2 == k then v else getD rest k

/-- Replace the value stored at key `k`. -/
def setKey : List (String × Value) → String → Value → List (String × Value)
  | [], _, _ => []
  | (k2, v2) :: rest, k, v => if k2 == k then (k, v) :: rest else (k2, v2) :: setKey rest k v

mutual
/-- `fn merge(a: &mut Value, b: Value)` of simba.rs: for an
object/object pair recurse over `b`'s entries through
`a.entry(k).or_insert(Value::Null)`; any other pair overwrites `a`
with `b`. -/
def merge : Value → Value → Value
  | Value.obj av, Value.obj bv => Value.obj (mergeObj av bv)
  | _, b => b
termination_by _ b => sizeOf b

/-- The `for (k, v) in b` loop of `merge`, folded over `b`'s entries. -/
def mergeObj : List (String × Value) → List (String × Value) → List (String × Value)
  | av, [] => av
  | av, (k, v) :: rest => mergeObj (mergeEntry av k v) rest
termination_by _ l => sizeOf l

/-- One loop iteration: `merge(a.entry(k).or_insert(Value::Null), v)`. -/
def mergeEntry : List (String × Value) → String → Value → List (String × Value)
  | av, k, v =>
    if hasKey av k then setKey av k (merge (getD av k) v)
    else av ++ [(k, merge Value.null v)]
termination_by _ _ v => sizeOf v + 1
end

/-- A document (`pserverpb::Document`); the fields simba.rs touches.
`version` is a u64; `source` bytes are modelled by their parsed JSON. -/
structure Document where
  id : String
  sort_key : String
  slot : Nat
  version : Nat
  source : Value

/-- Modelled from the spec: `id_coding(id, sort_key)` (util::coding is
not in the sources) is a deterministic byte encoding of the pair,
injective — collisions imply identical `(id, sort_key)` — so it is
modelled as the pair itself. -/
abbrev Iid := String × String

/-- `doc_id(&doc)`: the internal id of a document. -/
def doc_id (doc : Document) : Iid := (doc.id, doc.sort_key)

/-- Error codes simba.rs produces: coded errors (`NOT_FOUND`,
`VERSION_ERR`, `ENGINE_NOT_WRITABLE`) and generic `err_box` errors
carrying only a message. -/
inductive Err where
  | notFound : Err
  | versionErr : Err
  | engineNotWritable : Err
  | internal (msg : String) : Err
deriving DecidableEq

/-- Association-list lookup for the KV store and the index. -/
def kvGet : List (Iid × Document) → Iid → Option Document
  | [], _ => none
  | (k2, v) :: rest, k => if k2 = k then some v else kvGet rest k

/-- Association-list overwrite-or-append, as a KV put. -/
def kvPut : List (Iid × Document) → Iid → Document → List (Iid × Document)
  | [], k, v => [(k, v)]
  | (k2, v2) :: rest, k, v =>
    if k2 = k then (k, v) :: rest else (k2, v2) :: kvPut rest k v

/-- Association-list removal, as a KV delete. -/
def kvDel : List (Iid × Document) → Iid → List (Iid × Document)
  | [], _ => []
  | (k2, v2) :: rest, k => if k2 = k then kvDel rest k else (k2, v2) :: kvDel rest k

/-- Events appended to the raft log (`PutEvent { k, v }`,
`DelEvent { k }`); the key is the iid, the value the encoded document. -/
inductive RaftEvent where
  | putEvent (k : Iid) (v : Document) : RaftEvent
  | delEvent (k : Iid) : RaftEvent

/-- The engine state the write path touches: the rocksdb KV store, the
tantivy index, the raft log of appended events, and the `started` /
`writable` atomics. -/
structure EngineState where
  kv : List (Iid × Document)
  index : List (Iid × Document)
  raft_log : List RaftEvent
  started : Bool
  writable : Bool

/-- `check_writable`: `started && writable`. -/
def check_writable (s : EngineState) : Bool := s.started && s.writable

/-- `get_by_iid`: rocksdb get; a missing key is `NOT_FOUND`. -/
def get_by_iid (s : EngineState) (iid : Iid) : Except Err Document :=
  match kvGet s.kv iid with
  | some v => Except.ok v
  | none => Except.error Err.notFound

/-- `do_write`: when writable, put into rocksdb, put into tantivy,
append a `PutEvent` to the raft log (the commit-callback wait has no
state effect); otherwise fail `ENGINE_NOT_WRITABLE` touching nothing.
Returned as (result, state after the call). -/
def do_write (s : EngineState) (key : Iid) (value : Document) :
    Except Err Unit × EngineState :=
  if check_writable s then
    (Except.ok (),
      { s with
        kv := kvPut s.kv key value
        index := kvPut s.index key value
        raft_log := s.raft_log ++ [RaftEvent.putEvent key value] })
  else
    (Except.error Err.engineNotWritable, s)

/-- `do_delete`: the delete-side commit path. -/
def do_delete (s : EngineState) (key : Iid) : Except Err Unit × EngineState :=
  if check_writable s then
    (Except.ok (),
      { s with
        kv := kvDel s.kv key
        index := kvDel s.index key
        raft_log := s.raft_log ++ [RaftEvent.delEvent key] })
  else
    (Except.error Err.engineNotWritable, s)

/-- `merge_doc(new, old)`: merge the old source into the new source and
set `new.version = old.version + 1` (u64 arithmetic). -/
def merge_doc (new : Document) (old : Document) : Document :=
  { new with
    source := merge new.source old.source
    version := (old.version + 1) % u64M }

/-- `_create`: set version 1, then fail when the iid is already present
(`err_box` "already exists"); never reached from `write`, which routes
`Create` to `_overwrite`. -/
def _create (s : EngineState) (doc : Document) : Except Err Unit × EngineState :=
  let iid := doc_id doc
  let doc := { doc with version := 1 }
  match get_by_iid s iid with
  | Except.error e =>
    if e ≠ Err.notFound then (Except.error e, s) else do_write s iid doc
  | Except.ok _ =>
    (Except.error (Err.internal "the document already exists"), s)

/-- `_update`: read the old document (propagating `NOT_FOUND`), check
the requested version when it is positive, merge, then
`doc.version += old_version + 1` on top of what `merge_doc` set. -/
def _update (s : EngineState) (doc : Document) : Except Err Unit × EngineState :=
  let old_version := doc.version
  let iid := doc_id doc
  match get_by_iid s iid with
  | Except.error e => (Except.error e, s)
  | Except.ok old =>
    if old_version > 0 && old.version != old_version then
      (Except.error Err.versionErr, s)
    else
      let doc := merge_doc doc old
      let doc := { doc with version := (doc.version + old_version + 1) % u64M }
      do_write s iid doc

/-- `_upsert`: when the iid is present set `version = old.version + 1`
and merge (merge_doc re-assigns the same version); when absent store
with version 1; other read errors propagate. -/
def _upsert (s : EngineState) (doc : Document) : Except Err Unit × EngineState :=
  let iid := doc_id doc
  match get_by_iid s iid with
  | Except.ok old =>
    let doc := { doc with version := (old.version + 1) % u64M }
    let doc := merge_doc doc old
    do_write s iid doc
  | Except.error e =>
    if e = Err.notFound then do_write s iid { doc with version := 1 }
    else (Except.error e, s)

/-- `_delete`: the delete commit path on the document's iid. -/
def _delete (s : EngineState) (doc : Document) : Except Err Unit × EngineState :=
  do_delete s (doc_id doc)

/-- `_overwrite`: unconditionally store with version 1. -/
def _overwrite (s : EngineState) (doc : Document) : Except Err Unit × EngineState :=
  do_write s (doc_id doc) { doc with version := 1 }

/-- The write modes of `WriteDocumentRequest.write_type`. -/
inductive WriteType where
  | Overwrite : WriteType
  | Create : WriteType
  | Update : WriteType
  | Upsert : WriteType
  | Delete : WriteType
deriving DecidableEq

/-- Modelled from the spec: `WriteType::from_i32` (prost-generated
pserverpb is not in the sources); the spec gives
`write_type ∈ {Overwrite, Create, Update, Upsert, Delete}`, taken in
that order as 1..5; every other integer fails to decode. -/
def from_i32 (n : Int) : Option WriteType :=
  if n = 1 then some WriteType.Overwrite
  else if n = 2 then some WriteType.Create
  else if n = 3 then some WriteType.Update
  else if n = 4 then some WriteType.Upsert
  else if n = 5 then some WriteType.Delete
  else none

/-- `WriteDocumentRequest`: the document and the raw write_type
integer (the Rust `doc` option is unwrapped on entry to `write`). -/
structure WriteDocumentRequest where
  doc : Document
  write_type : Int

/-- `write`: dispatch on the decoded write type; `Create` routes
to `_overwrite`; an undecodable write_type is
`err_box("can not do the handler")`. -/
def write (s : EngineState) (req : WriteDocumentRequest) :
    Except Err Unit × EngineState :=
  match from_i32 req.write_type with
  | some WriteType.Overwrite => _overwrite s req.doc
  | some WriteType.Create => _overwrite s req.doc
  | some WriteType.Update => _update s req.doc
  | some WriteType.Upsert => _upsert s req.doc
  | some WriteType.Delete => _delete s req.doc
  | none => (Except.error (Err.internal "can not do the handler"), s)

/-- The `max_sn` cell (`RwLock<u64>`). -/
structure SnState where
  max_sn : Nat

/-- `get_sn`: read `max_sn`. -/
def get_sn (s : SnState) : Nat := s.max_sn

/-- `set_sn_if_max`: write `sn` into `max_sn` only when it is larger. -/
def set_sn_if_max (s : SnState) (sn : Nat) : SnState :=
  if s.max_sn < sn then { max_sn := sn } else s

/-- A search hit, opaque to simba.rs. -/
structure SearchHit where
  data : List Nat

/-- `SearchInfo { error, success, message }`. -/
structure SearchInfo where
  error : Nat
  success : Nat
  message : String
deriving DecidableEq

/-- `SearchDocumentResponse { code, total, hits, info }`. -/
structure SearchDocumentResponse where
  code : Int
  total : Nat
  hits : List SearchHit
  info : Option SearchInfo

/-- `search`: delegate to the tantivy index (its outcome is the
argument: either a response or an error cast by `cast_to_err` to a
(code, message) pair); an index error becomes a response with the
error code, total 0, no hits and a diagnostic `SearchInfo`. -/
def search (index_result : Except (Int × String) SearchDocumentResponse) :
    SearchDocumentResponse :=
  match index_result with
  | Except.ok r => r
  | Except.error e =>
    { code := e.1
      total := 0
      hits := []
      info := some
        { error := 1
          success := 0
          message := "search document err:" ++ e.2 } }

/-- A decoded log event as `LogEvent::to_event` returns it: the replay
match only ever inspects its type; its own key and value are carried
here so divergence from them is expressible. -/
inductive ReplayEvent where
  | put (k : List Nat) (v : List Nat) : ReplayEvent
  | del (k : List Nat) : ReplayEvent

/-- An sn-tagged operation applied to a store during replay. -/
inductive StoreOp where
  | del (sn : Nat) (k : List Nat) : StoreOp
  | put (sn : Nat) (k : List Nat) (v : List Nat) : StoreOp
deriving DecidableEq

/-- The two stores as replay sees them: the sequences of tagged
operations applied to rocksdb and tantivy, plus the `writable` flag. -/
structure ReplayStores where
  rocksdb_ops : List StoreOp
  tantivy_ops : List StoreOp
  writable : Bool

/-- One iteration of the `load_engine` replay loop on a log entry
`(index, data)`: when the payload is non-empty and decodes, a Delete
event deletes the hardcoded key `[0, 0, 0, 0]` from both stores (the
`event as Box<DelEvent>` downcast is commented out in the source) and
a Put event does nothing (its whole branch is commented out); the
loop then marks the engine writable. `decode` stands for
`LogEvent::to_event`, which is not in the sources. -/
def replay_entry (decode : List Nat → Except Unit ReplayEvent)
    (s : ReplayStores) (log_index : Nat) (data : List Nat) : ReplayStores :=
  let s1 :=
    if data.length > 0 then
      match decode data with
      | Except.ok ev =>
        match ev with
        | ReplayEvent.del _ =>
          let delk : List Nat := [0, 0, 0, 0]
          { s with
            rocksdb_ops := s.rocksdb_ops ++ [StoreOp.del log_index delk]
            tantivy_ops := s.tantivy_ops ++ [StoreOp.del log_index delk] }
        | ReplayEvent.put _ _ => s
      | Except.error _ => s
    else s
  { s1 with writable := true }

/-- Lookup of a key in a JSON object value (none on other values or
missing keys); used to state what a merged source contains. -/
def objGet : Value → String → Option Value
  | Value.obj fields, k => if hasKey fields k then some (getD fields k) else none
  | _, _ => none

/-- A started, writable engine over empty stores and an empty log. -/
def s_empty_writable : EngineState :=
  { kv := [], index := [], raft_log := [], started := true, writable := true }

/-- A started engine that is not marked writable (follower side). -/
def s_not_writable : EngineState :=
  { kv := [], index := [], raft_log := [], started := true, writable := false }

/-- Document `{id:"a", sort_key:"", source:{"x":1}}` with version 0. -/
def docA : Document :=
  { id := "a", sort_key := "", slot := 0, version := 0
    source := Value.obj [("x", Value.num 1)] }

/-- Document `{id:"a", sort_key:"", source:{"x":9}}` with version 0. -/
def docA9 : Document :=
  { id := "a", sort_key := "", slot := 0, version := 0
    source := Value.obj [("x", Value.num 9)] }

/-- The engine after `write` of `docA` with write_type Create (2) on
the empty writable engine. -/
def s_a1 : EngineState :=
  (write s_empty_writable { doc := docA, write_type := 2 }).2

/-- Document `{id:"b", sort_key:"", source:{"x":1}}` with version 0. -/
def docB1 : Document :=
  { id := "b", sort_key := "", slot := 0, version := 0
    source := Value.obj [("x", Value.num 1)] }

/-- Document `{id:"b", sort_key:"", source:{"y":2}}` with version 0. -/
def docB2 : Document :=
  { id := "b", sort_key := "", slot := 0, version := 0
    source := Value.obj [("y", Value.num 2)] }

/-- The engine after Upsert of `docB1` then Upsert of `docB2` on the
empty writable engine (scenario S4). -/
def sB_scenario : EngineState :=
  (_upsert (_upsert s_empty_writable docB1).2 docB2).2

/-- Replay stores before any log entry is applied. -/
def r_empty : ReplayStores :=
  { rocksdb_ops := [], tantivy_ops := [], writable := false }

/-- A KV get after a put of the same key returns the value just put. -/
theorem kvGet_kvPut (kv : List (Iid × Document)) (k : Iid) (v : Document) :
    kvGet (kvPut kv k v) k = some v := by
  induction kv with
  | nil => simp [kvPut, kvGet]
  | cons hd tl ih =>
    obtain ⟨k2, v2⟩ := hd
    by_cases h : k2 = k <;> simp [kvPut, kvGet, h, ih]

/-- The only read error `get_by_iid` produces is `NOT_FOUND`. -/
theorem get_by_iid_error_eq (s : EngineState) (iid : Iid) (e : Err)
    (h : get_by_iid s iid = Except.error e) : e = Err.notFound := by
  unfold get_by_iid at h
  cases hk : kvGet s.kv iid <;> simp [hk] at h
  exact h.symm

/-- On a non-writable engine `do_write` fails without touching state. -/
theorem do_write_not_writable (s : EngineState) (k : Iid) (v : Document)
    (hw : check_writable s = false) :
    do_write s k v = (Except.error Err.engineNotWritable, s) := by
  simp [do_write, hw]

/-- On a non-writable engine `do_delete` fails without touching state. -/
theorem do_delete_not_writable (s : EngineState) (k : Iid)
    (hw : check_writable s = false) :
    do_delete s k = (Except.error Err.engineNotWritable, s) := by
  simp [do_delete, hw]

/-- `do_write` either succeeds or fails `ENGINE_NOT_WRITABLE`. -/
theorem do_write_fst (s : EngineState) (k : Iid) (v : Document) :
    (do_write s k v).1 = Except.ok () ∨
    (do_write s k v).1 = Except.error Err.engineNotWritable := by
  unfold do_write
  split <;> simp

/-- `do_write` never fails with `VERSION_ERR`. -/
theorem do_write_fst_ne_versionErr (s : EngineState) (k : Iid) (v : Document) :
    (do_write s k v).1 ≠ Except.error Err.versionErr := by
  unfold do_write
  split <;> simp

/-- On a writable engine `do_write` applies to KV, index and log. -/
theorem do_write_writable (s : EngineState) (k : Iid) (v : Document)
    (hw : check_writable s = true) :
    do_write s k v =
      (Except.ok (),
        { s with
          kv := kvPut s.kv k v
          index := kvPut s.index k v
          raft_log := s.raft_log ++ [RaftEvent.putEvent k v] }) := by
  simp [do_write, hw]

/-- Claim C1: during leader replay, a decoded Put event is supposed to
write its own key and value to both stores and a decoded Delete event
to delete its own key from both, tagged with the log index. The code
does neither: replaying a log entry at index 7 whose payload decodes
to `Put{k=[1,2], v=[3]}` applies no operation to either store, and a
payload decoding to `Delete{k=[5,6]}` deletes the hardcoded key
`[0,0,0,0]` from both stores instead of the event's own key. -/
theorem replay_put_ignored_delete_key_hardcoded :
    (replay_entry (fun _ => Except.ok (ReplayEvent.put [1, 2] [3])) r_empty 7 [9]).rocksdb_ops = []
  ∧ (replay_entry (fun _ => Except.ok (ReplayEvent.put [1, 2] [3])) r_empty 7 [9]).tantivy_ops = []
  ∧ (replay_entry (fun _ => Except.ok (ReplayEvent.del [5, 6])) r_empty 7 [9]).rocksdb_ops =
      [StoreOp.del 7 [0, 0, 0, 0]]
  ∧ (replay_entry (fun _ => Except.ok (ReplayEvent.del [5, 6])) r_empty 7 [9]).tantivy_ops =
      [StoreOp.del 7 [0, 0, 0, 0]]
  ∧ StoreOp.del 7 [0, 0, 0, 0] ≠ StoreOp.del 7 [5, 6] :=
  ⟨rfl, rfl, rfl, rfl, by decide⟩

/-- Claim C2: `write` routes Create to `_overwrite`, so a Create on an
iid that is already stored (here `("a","")`, holding `docA` at version
1) succeeds and replaces the stored document with the new one at
version 1 — it neither fails AlreadyExists nor leaves the stored
document unchanged. The unused `_create` does implement the claimed
behavior. -/
theorem create_overwrites_existing :
    kvGet s_a1.kv ("a", "") = some { docA with version := 1 }
  ∧ (write s_a1 { doc := docA9, write_type := 2 }).1 = Except.ok ()
  ∧ kvGet (write s_a1 { doc := docA9, write_type := 2 }).2.kv ("a", "") =
      some { docA9 with version := 1 }
  ∧ ({ docA9 with version := 1 } : Document).source ≠
      ({ docA with version := 1 } : Document).source
  ∧ (_create s_a1 docA9).1 =
      Except.error (Err.internal "the document already exists") := by
  refine ⟨rfl, rfl, rfl, ?_, rfl⟩
  simp [docA, docA9]

/-- Claim C3: an Update of the stored version-1 document `("a","")`
with request version 0 succeeds but stores version 3, not the claimed
`old.version + 1 = 2`: `merge_doc` already sets `old.version + 1` and
`_update` then adds `request.version + 1` on top. -/
theorem update_version_double_add :
    (kvGet s_a1.kv ("a", "")).map Document.version = some 1
  ∧ (_update s_a1 { docA9 with version := 0 }).1 = Except.ok ()
  ∧ (kvGet (_update s_a1 { docA9 with version := 0 }).2.kv ("a", "")).map Document.version =
      some 3
  ∧ (3 : Nat) ≠ 1 + 1 :=
  ⟨rfl, rfl, rfl, by decide⟩

/-- Claim C4: merging new source `{"x":2}` with old source `{"x":1}`
yields `{"x":1}` — at a key whose two values are not both objects, the
OLD document's value overwrites the new one (`merge(&mut new, old)`
ends in `*a = b` with `b` the old value), contradicting the claim that
the new value replaces the old. (Keys absent from the new source are
indeed filled in from the old source, as the second conjunct shows.) -/
theorem merge_old_value_wins :
    merge (Value.obj [("x", Value.num 2)]) (Value.obj [("x", Value.num 1)]) =
      Value.obj [("x", Value.num 1)]
  ∧ merge (Value.obj [("y", Value.num 2)]) (Value.obj [("x", Value.num 1)]) =
      Value.obj [("y", Value.num 2), ("x", Value.num 1)]
  ∧ (merge_doc docA9 { docA with version := 1 }).source = Value.obj [("x", Value.num 1)]
  ∧ Value.obj [("x", Value.num 1)] ≠ Value.obj [("x", Value.num 2)] := by
  refine ⟨?_, ?_, ?_, ?_⟩
  · simp [merge, mergeObj, mergeEntry, hasKey, setKey, getD]
  · simp [merge, mergeObj, mergeEntry, hasKey, setKey, getD]
  · simp [merge_doc, docA, docA9, merge, mergeObj, mergeEntry, hasKey, setKey, getD]
  · simp

/-- Claim C5 counterexample: on a started but non-writable engine, an
Update (write_type 3) of the absent iid `("a","")` fails with
`NOT_FOUND`, not `ENGINE_NOT_WRITABLE` — the writability check sits in
`do_write`/`do_delete`, after `_update`'s read. -/
theorem update_not_writable_fails_not_found :
    check_writable s_not_writable = false
  ∧ (write s_not_writable { doc := docA, write_type := 3 }).1 = Except.error Err.notFound
  ∧ Err.notFound ≠ Err.engineNotWritable :=
  ⟨rfl, rfl, by decide⟩

/-- On a non-writable engine `_overwrite` fails without touching state. -/
theorem _overwrite_not_writable (s : EngineState) (doc : Document)
    (hw : check_writable s = false) :
    _overwrite s doc = (Except.error Err.engineNotWritable, s) := by
  simp [_overwrite, do_write_not_writable _ _ _ hw]

/-- On a non-writable engine `_delete` fails without touching state. -/
theorem _delete_not_writable (s : EngineState) (doc : Document)
    (hw : check_writable s = false) :
    _delete s doc = (Except.error Err.engineNotWritable, s) := by
  simp [_delete, do_delete_not_writable _ _ hw]

/-- On a non-writable engine `_upsert` fails without touching state:
both the present and the absent branch end in `do_write`. -/
theorem _upsert_not_writable (s : EngineState) (doc : Document)
    (hw : check_writable s = false) :
    _upsert s doc = (Except.error Err.engineNotWritable, s) := by
  unfold _upsert
  cases h : get_by_iid s (doc_id doc) with
  | ok old => simp [h, do_write_not_writable _ _ _ hw]
  | error e =>
    have he := get_by_iid_error_eq s _ e h
    subst he
    simp [h, do_write_not_writable _ _ _ hw]

/-- On a non-writable engine `_update` changes nothing and fails with
`ENGINE_NOT_WRITABLE`, `NOT_FOUND` or `VERSION_ERR`. -/
theorem _update_not_writable (s : EngineState) (doc : Document)
    (hw : check_writable s = false) :
    (_update s doc).2 = s
  ∧ ((_update s doc).1 = Except.error Err.engineNotWritable
     ∨ (_update s doc).1 = Except.error Err.notFound
     ∨ (_update s doc).1 = Except.error Err.versionErr) := by
  unfold _update
  cases h : get_by_iid s (doc_id doc) with
  | error e =>
    have he := get_by_iid_error_eq s _ e h
    subst he
    simp [h]
  | ok old =>
    by_cases hc : 0 < doc.version ∧ ¬old.version = doc.version
    · simp [h, hc]
    · simp [h, hc, do_write_not_writable _ _ _ hw]

/-- Claim C5 (amended): with the engine not writable, no write of any
decodable type changes the KV store, the index or the log, and the
write fails; Overwrite, Create, Upsert and Delete fail with
`ENGINE_NOT_WRITABLE`, while Update may instead fail with `NOT_FOUND`
or `VERSION_ERR` from its read phase, which runs before the
writability check. -/
theorem write_not_writable_no_change (s : EngineState)
    (req : WriteDocumentRequest) (wt : WriteType)
    (hdec : from_i32 req.write_type = some wt)
    (hw : check_writable s = false) :
    (write s req).2 = s
  ∧ ((write s req).1 = Except.error Err.engineNotWritable
     ∨ (write s req).1 = Except.error Err.notFound
     ∨ (write s req).1 = Except.error Err.versionErr)
  ∧ (wt ≠ WriteType.Update →
      (write s req).1 = Except.error Err.engineNotWritable) := by
  unfold write
  rw [hdec]
  cases wt with
  | Overwrite => simp [_overwrite_not_writable _ _ hw]
  | Create => simp [_overwrite_not_writable _ _ hw]
  | Update =>
    rcases _update_not_writable s req.doc hw with ⟨h2, h1⟩
    exact ⟨h2, h1, by simp⟩
  | Upsert => simp [_upsert_not_writable _ _ hw]
  | Delete => simp [_delete_not_writable _ _ hw]

/-- Claim C5 witness: the amended statement at the concrete Update
request of `docA` on the non-writable engine. -/
theorem write_not_writable_no_change_witness :
    from_i32 3 = some WriteType.Update
  ∧ check_writable s_not_writable = false
  ∧ ((write s_not_writable { doc := docA, write_type := 3 }).2 = s_not_writable
    ∧ ((write s_not_writable { doc := docA, write_type := 3 }).1 =
          Except.error Err.engineNotWritable
       ∨ (write s_not_writable { doc := docA, write_type := 3 }).1 =
          Except.error Err.notFound
       ∨ (write s_not_writable { doc := docA, write_type := 3 }).1 =
          Except.error Err.versionErr)
    ∧ (WriteType.Update ≠ WriteType.Update →
        (write s_not_writable { doc := docA, write_type := 3 }).1 =
          Except.error Err.engineNotWritable)) :=
  ⟨rfl, rfl,
    write_not_writable_no_change s_not_writable
      { doc := docA, write_type := 3 } WriteType.Update rfl rfl⟩

/-- Claim C6: for a stored document `old` at the request's iid and a
request version above 0, `_update` fails `VERSION_ERR` exactly when
the stored version differs from the request's; on an absent iid it
fails `NOT_FOUND`. -/
theorem update_version_mismatch_iff (s : EngineState) (doc old : Document)
    (hv : 0 < doc.version) :
    (kvGet s.kv (doc_id doc) = some old →
      ((_update s doc).1 = Except.error Err.versionErr ↔
        old.version ≠ doc.version))
  ∧ (kvGet s.kv (doc_id doc) = none →
      (_update s doc).1 = Except.error Err.notFound) := by
  constructor
  · intro hp
    unfold _update
    simp only [get_by_iid, hp]
    by_cases hne : old.version = doc.version
    · simp [hne]
      exact do_write_fst_ne_versionErr _ _ _
    · simp [hv, hne]
  · intro ha
    unfold _update
    simp [get_by_iid, ha]

/-- Claim C6 witness: the statement at the stored version-1 document
under `("a","")` and an Update request carrying version 5. -/
theorem update_version_mismatch_iff_witness :
    0 < ({ docA9 with version := 5 } : Document).version
  ∧ ((kvGet s_a1.kv (doc_id { docA9 with version := 5 }) =
        some { docA with version := 1 } →
      ((_update s_a1 { docA9 with version := 5 }).1 = Except.error Err.versionErr ↔
        ({ docA with version := 1 } : Document).version ≠
          ({ docA9 with version := 5 } : Document).version))
    ∧ (kvGet s_a1.kv (doc_id { docA9 with version := 5 }) = none →
      (_update s_a1 { docA9 with version := 5 }).1 = Except.error Err.notFound)) :=
  ⟨Nat.succ_pos 4,
    update_version_mismatch_iff s_a1 { docA9 with version := 5 }
      { docA with version := 1 } (Nat.succ_pos 4)⟩

/-- Claim C7: on a writable engine, Upsert of an absent iid stores the
document with version 1 and Upsert over a stored document `old` stores
version `old.version + 1` with the source merged with the old source;
concretely (scenario S4) Upsert of `{id:"b", source:{"x":1}}` followed
by Upsert of `{id:"b", source:{"y":2}}` leaves a stored document with
version 2 whose source contains both `x` and `y`. -/
theorem upsert_stores_merged (s : EngineState) (doc old : Document)
    (hw : check_writable s = true) (hv : old.version + 1 < u64M) :
    (kvGet s.kv (doc_id doc) = none →
      (_upsert s doc).1 = Except.ok ()
      ∧ kvGet (_upsert s doc).2.kv (doc_id doc) = some { doc with version := 1 })
  ∧ (kvGet s.kv (doc_id doc) = some old →
      (_upsert s doc).1 = Except.ok ()
      ∧ kvGet (_upsert s doc).2.kv (doc_id doc) =
          some { doc with
                 version := old.version + 1
                 source := merge doc.source old.source })
  ∧ (kvGet sB_scenario.kv ("b", "")).map Document.version = some 2
  ∧ (kvGet sB_scenario.kv ("b", "")).map (fun d => objGet d.source "x") =
      some (some (Value.num 1))
  ∧ (kvGet sB_scenario.kv ("b", "")).map (fun d => objGet d.source "y") =
      some (some (Value.num 2)) := by
  refine ⟨?_, ?_, ?_, ?_, ?_⟩
  · intro ha
    unfold _upsert
    simp [get_by_iid, ha, do_write_writable _ _ _ hw, kvGet_kvPut]
  · intro hp
    unfold _upsert
    simp [get_by_iid, hp, merge_doc, do_write_writable _ _ _ hw, kvGet_kvPut,
      Nat.mod_eq_of_lt hv]
  · simp [sB_scenario, s_empty_writable, docB1, docB2, _upsert, get_by_iid,
      kvGet, do_write, check_writable, kvPut, merge_doc, doc_id, u64M,
      merge, mergeObj, mergeEntry, hasKey, setKey, getD]
  · simp [sB_scenario, s_empty_writable, docB1, docB2, _upsert, get_by_iid,
      kvGet, do_write, check_writable, kvPut, merge_doc, doc_id, u64M,
      merge, mergeObj, mergeEntry, hasKey, setKey, getD, objGet]
  · simp [sB_scenario, s_empty_writable, docB1, docB2, _upsert, get_by_iid,
      kvGet, do_write, check_writable, kvPut, merge_doc, doc_id, u64M,
      merge, mergeObj, mergeEntry, hasKey, setKey, getD, objGet]

/-- Claim C7 witness: the statement at the empty writable engine with
`docB1` for both the request and the (vacuous) stored document. -/
theorem upsert_stores_merged_witness :
    check_writable s_empty_writable = true
  ∧ docB1.version + 1 < u64M
  ∧ ((kvGet s_empty_writable.kv (doc_id docB1) = none →
      (_upsert s_empty_writable docB1).1 = Except.ok ()
      ∧ kvGet (_upsert s_empty_writable docB1).2.kv (doc_id docB1) =
          some { docB1 with version := 1 })
    ∧ (kvGet s_empty_writable.kv (doc_id docB1) = some docB1 →
      (_upsert s_empty_writable docB1).1 = Except.ok ()
      ∧ kvGet (_upsert s_empty_writable docB1).2.kv (doc_id docB1) =
          some { docB1 with
                 version := docB1.version + 1
                 source := merge docB1.source docB1.source })
    ∧ (kvGet sB_scenario.kv ("b", "")).map Document.version = some 2
    ∧ (kvGet sB_scenario.kv ("b", "")).map (fun d => objGet d.source "x") =
        some (some (Value.num 1))
    ∧ (kvGet sB_scenario.kv ("b", "")).map (fun d => objGet d.source "y") =
        some (some (Value.num 2))) :=
  ⟨rfl, by decide,
    upsert_stores_merged s_empty_writable docB1 docB1 rfl (by decide)⟩

/-- `set_sn_if_max` never lowers `max_sn`. -/
theorem get_sn_le_set_sn_if_max (s : SnState) (sn : Nat) :
    get_sn s ≤ get_sn (set_sn_if_max s sn) := by
  simp only [get_sn, set_sn_if_max]
  split
  · next h => exact Nat.le_of_lt h
  · exact Nat.le_refl _

/-- Claim C8: `set_sn_if_max` is a monotonic update: afterwards
`get_sn` reads the maximum of the old value and the input, and under
any sequence of `set_sn_if_max` calls `max_sn` never decreases. -/
theorem set_sn_if_max_is_max (s : SnState) (sn : Nat) :
    get_sn (set_sn_if_max s sn) = max (get_sn s) sn
  ∧ ∀ sns : List Nat, get_sn s ≤ get_sn (sns.foldl set_sn_if_max s) := by
  constructor
  · simp only [get_sn, set_sn_if_max]
    split
    · next h => exact (Nat.max_eq_right (Nat.le_of_lt h)).symm
    · next h => exact (Nat.max_eq_left (Nat.le_of_not_lt h)).symm
  · intro sns
    induction sns generalizing s with
    | nil => exact Nat.le_refl _
    | cons x tl ih =>
      simp only [List.foldl]
      exact Nat.le_trans (get_sn_le_set_sn_if_max s x) (ih (set_sn_if_max s x))

/-- Claim C9: `search` turns an index error (cast to its (code,
message) pair) into a plain response — the error code, total 0, no
hits, and an info with `error = 1` and a diagnostic message — instead
of propagating the failure (it returns a response on every input). -/
theorem search_wraps_index_error (e : Int × String) :
    (search (Except.error e)).code = e.1
  ∧ (search (Except.error e)).total = 0
  ∧ (search (Except.error e)).hits = []
  ∧ (search (Except.error e)).info =
      some { error := 1, success := 0, message := "search document err:" ++ e.2 } :=
  ⟨rfl, rfl, rfl, rfl⟩

/-- Claim C10: a write whose `write_type` integer does not decode to
any of the five write modes fails with the "can not do the handler"
error and returns the engine state unchanged. -/
theorem write_unknown_type_rejected (s : EngineState)
    (req : WriteDocumentRequest) (h : from_i32 req.write_type = none) :
    write s req = (Except.error (Err.internal "can not do the handler"), s) := by
  unfold write
  rw [h]

/-- Claim C10 witness: write_type 0 decodes to no write mode and is
rejected on the empty writable engine without a state change. -/
theorem write_unknown_type_rejected_witness :
    from_i32 0 = none
  ∧ write s_empty_writable { doc := docA, write_type := 0 } =
      (Except.error (Err.internal "can not do the handler"), s_empty_writable) :=
  ⟨rfl, write_unknown_type_rejected s_empty_writable
    { doc := docA, write_type := 0 } rfl⟩

end Simba
